import Mathlib

/-!
Shallow embedding of the core of the `awesome-python3-webapp` repository
(files `www/orm.py`, `www/coroweb.py`, `www/app.py`) and proofs about it.

Python values are modelled by the inductive `PyVal`; Python `dict`s by
insertion-ordered association lists with unique keys (updates replace the
first occurrence in place, new keys are appended, matching CPython `dict`
semantics); fallible Python code (raised exceptions) by `Except String`.
Async I/O against the database driver is modelled by an explicit driver
behaviour record plus an event trace.
-/

namespace Spec2Proof

/-- The universe of Python values the verified code paths manipulate.
`vnone` is Python's `None`; `vrequest` stands for an (opaque) aiohttp
request object; `vstream` for an aiohttp `StreamResponse` instance. -/
inductive PyVal : Type where
  | vnone : PyVal
  | vint (n : Int) : PyVal
  | vstr (s : String) : PyVal
  | vbytes (bs : List Nat) : PyVal
  | vtuple (xs : List PyVal) : PyVal
  | vlist (xs : List PyVal) : PyVal
  | vdict (kvs : List (String × PyVal)) : PyVal
  | vrequest : PyVal
  | vstream : PyVal

/-- `sep.join(l)` from Python: concatenate the strings of `l` with `sep`
between consecutive elements. -/
def joinWith (sep : String) : List String → String
  | [] => ""
  | [x] => x
  | x :: y :: xs => x ++ sep ++ joinWith sep (y :: xs)

/-- `d[k]` lookup on a Python dict modelled as an association list:
the first binding of `k` wins (bindings are unique in dicts built by the
embedded code). -/
def dictGet (d : List (String × PyVal)) (k : String) : Option PyVal :=
  match d with
  | [] => none
  | (k2, v) :: rest => if k2 = k then some v else dictGet rest k

/-- `d[k] = v` on a Python dict: replace the first binding of `k` in
place (keeping its insertion position), or append a new binding. -/
def dictSet (d : List (String × PyVal)) (k : String) (v : PyVal) :
    List (String × PyVal) :=
  match d with
  | [] => [(k, v)]
  | (k2, v2) :: rest =>
      if k2 = k then (k2, v) :: rest else (k2, v2) :: dictSet rest k v

/-- `k in d` on a Python dict. -/
def dictHas (d : List (String × PyVal)) (k : String) : Bool :=
  d.any (fun kv => kv.1 == k)

/-- ASCII lowercasing of one character, as `str.lower()` acts on the
content-type strings the request adapter compares. -/
def lowerChar (c : Char) : Char :=
  if 'A' ≤ c ∧ c ≤ 'Z' then Char.ofNat (c.toNat + 32) else c

/-- `s.lower()` on a content-type string. -/
def strToLower (s : String) : String := String.mk (s.data.map lowerChar)

/-- Character-list core of `s.startswith(p)`. -/
def strStartsWithChars : List Char → List Char → Bool
  | _, [] => true
  | [], _ :: _ => false
  | c :: cs, p :: ps => c == p && strStartsWithChars cs ps

/-- Python `s.startswith(p)`. -/
def strStartsWith (s p : String) : Bool := strStartsWithChars s.data p.data

mutual

/-- Python `repr` of a value, as far as the embedded code can observe it
(`str` of tuples/lists/dicts recurses through `repr` of the elements).
The `repr` of `bytes` is elided: no verified code path ever takes `str`
of a bytes object. -/
def pyRepr : PyVal → String
  | .vnone => "None"
  | .vint n => toString n
  | .vstr s => "'" ++ s ++ "'"
  | .vbytes _ => "<bytes>"
  | .vtuple xs =>
      if xs.length = 1 then "(" ++ joinWith ", " (pyReprList xs) ++ ",)"
      else "(" ++ joinWith ", " (pyReprList xs) ++ ")"
  | .vlist xs => "[" ++ joinWith ", " (pyReprList xs) ++ "]"
  | .vdict kvs => "\x7b" ++ joinWith ", " (pyReprKVs kvs) ++ "\x7d"
  | .vrequest => "<Request>"
  | .vstream => "<StreamResponse>"
termination_by v => sizeOf v

/-- `repr` of each element of a Python list/tuple. -/
def pyReprList : List PyVal → List String
  | [] => []
  | x :: xs => pyRepr x :: pyReprList xs
termination_by l => sizeOf l

/-- `repr` of each `key: value` entry of a Python dict. -/
def pyReprKVs : List (String × PyVal) → List String
  | [] => []
  | (k, v) :: kvs => ("'" ++ k ++ "': " ++ pyRepr v) :: pyReprKVs kvs
termination_by l => sizeOf l

end

/-- Python `str()` of a value: strings print themselves, every other
value prints as its `repr`. -/
def pyStr : PyVal → String
  | .vstr s => s
  | v => pyRepr v

/-! ## orm.py: Field descriptors and the Model metaclass -/

/-- The `default` attribute of a `Field`: Python `None`, a plain value,
or a zero-argument callable (modelled by the value it produces, since
`getValueOrDefault` only ever calls it). -/
inductive FieldDefault : Type where
  | dnone : FieldDefault
  | dval (v : PyVal) : FieldDefault
  | dfun (produces : PyVal) : FieldDefault

/-- `orm.Field`: column name (possibly `None`), column type, primary-key
flag and default (orm.py lines 70-76). -/
structure Field : Type where
  name : Option String
  column_type : String
  primary_key : Bool
  default : FieldDefault

/-- A class attribute as seen by `ModelMetaclass.__new__`: either a
`Field` instance or anything else (`isinstance(v, Field)` fails). -/
inductive Attr : Type where
  | afield (f : Field) : Attr
  | aother : Attr

/-- A lookup in the `mappings` dict of a model class. -/
def dictGetF (d : List (String × Field)) (k : String) : Option Field :=
  match d with
  | [] => none
  | (k2, v) :: rest => if k2 = k then some v else dictGetF rest k

/-- Python truthiness of the `primaryKey` variable in
`ModelMetaclass.__new__` (`None` and the empty string are falsy). -/
def pyTruthyStrOpt : Option String → Bool
  | none => false
  | some s => s != ""

/-- The attribute scan of `ModelMetaclass.__new__` (orm.py lines 122-139):
walk the class attributes in declaration order collecting `mappings`
(attribute name to `Field`), `fields` (non-key attribute names) and the
primary-key name; raise `RuntimeError` on a second primary key, and after
the loop when no primary key was found. -/
def scanFields : List (String × Attr) → List (String × Field) →
    List String → Option String →
    Except String (List (String × Field) × List String × String)
  | [], _, _, none => .error "Primary key not found."
  | [], mappings, fields, some pk =>
      if pk != "" then .ok (mappings, fields, pk)
      else .error "Primary key not found."
  | (k, a) :: rest, mappings, fields, primaryKey =>
      match a with
      | .aother => scanFields rest mappings fields primaryKey
      | .afield v =>
          if v.primary_key then
            if pyTruthyStrOpt primaryKey then
              .error ("Duplicate primary key for field: " ++ k)
            else
              scanFields rest (mappings ++ [(k, v)]) fields (some k)
          else
            scanFields rest (mappings ++ [(k, v)]) (fields ++ [k]) primaryKey

/-- `create_args_string` (orm.py lines 63-67): `num` question marks
joined by `', '`. -/
def create_args_string (num : Nat) : String :=
  joinWith ", " (List.replicate num "?")

/-- Backtick-escape of one attribute name,
`lambda f: '`%s`' % f` (orm.py line 143). -/
def escapeField (f : String) : String := "`" ++ f ++ "`"

/-- Python `name or f` for an optional declared column name:
falls back to the attribute name when `name` is `None` or empty. -/
def pyNameOr (n : Option String) (f : String) : String :=
  match n with
  | some s => if s = "" then f else s
  | none => f

/-- One item of the UPDATE SET clause,
`'`%s`=?' % (mappings.get(f).name or f)` (orm.py line 151).
The attribute name `f` is always a key of `mappings` when the metaclass
calls this. -/
def updateSetItem (mappings : List (String × Field)) (f : String) : String :=
  match dictGetF mappings f with
  | some fld => "`" ++ pyNameOr fld.name f ++ "`=?"
  | none => "`" ++ f ++ "`=?"

/-- The metadata `ModelMetaclass.__new__` installs on a model class:
mappings, table name, primary key, non-key field names and the four
canned SQL statements (orm.py lines 144-152). -/
structure ModelMeta : Type where
  mappings : List (String × Field)
  tableName : String
  primaryKey : String
  fields : List String
  selectSql : String
  insertSql : String
  updateSql : String
  deleteSql : String

/-- Build the metadata record from the scan results, producing the four
canned SQL strings exactly as orm.py lines 143-152 format them. -/
def buildMeta (tableName : String) (mappings : List (String × Field))
    (fields : List String) (pk : String) : ModelMeta :=
  let escaped_fields := fields.map escapeField
  { mappings := mappings
    tableName := tableName
    primaryKey := pk
    fields := fields
    selectSql := "select `" ++ pk ++ "`, " ++ joinWith ", " escaped_fields ++
      " from `" ++ tableName ++ "`"
    insertSql := "insert into `" ++ tableName ++ "` (" ++
      joinWith ", " escaped_fields ++ ", `" ++ pk ++ "`) values (" ++
      create_args_string (escaped_fields.length + 1) ++ ")"
    updateSql := "update `" ++ tableName ++ "` set " ++
      joinWith ", " (fields.map (updateSetItem mappings)) ++
      " where `" ++ pk ++ "`=?"
    deleteSql := "delete from `" ++ tableName ++ "` where `" ++ pk ++ "`=?" }

/-- `ModelMetaclass.__new__` (orm.py lines 114-153).  The class named
`Model` itself is passed through untouched (`.ok none`); any other class
gets its attributes scanned and, on success, the computed metadata
(`.ok (some meta)`); a `RuntimeError` is `.error`.  `tableAttr` is the
declared `__table__` attribute; `attrs.get('__table__', None) or name`
falls back to the class name when it is absent or empty. -/
def modelMetaNew (name : String) (tableAttr : Option String)
    (attrs : List (String × Attr)) : Except String (Option ModelMeta) :=
  if name = "Model" then .ok none
  else
    let tableName :=
      match tableAttr with
      | some t => if t = "" then name else t
      | none => name
    match scanFields attrs [] [] none with
    | .error e => .error e
    | .ok (m, fs, pk) => .ok (some (buildMeta tableName m fs pk))

/-- Number of attributes marked `primary_key` among the declared `Field`
attributes of a class. -/
def countPrimary : List (String × Attr) → Nat
  | [] => 0
  | (_, .afield f) :: rest => (if f.primary_key then 1 else 0) + countPrimary rest
  | (_, .aother) :: rest => countPrimary rest

/-! ## orm.py: data-access functions `select` and `execute` -/

/-- One database row as the `DictCursor` returns it: a column-name to
value mapping. -/
abbrev Row : Type := List (String × PyVal)

/-- `cur.fetchmany(size)`: at most `size` rows of the pending result. -/
def fetchmany (size : Int) (rows : List Row) : List Row :=
  rows.take size.toNat

/-- The pure content of `orm.select` (orm.py lines 31-42) as a function
of the full result set the driver would deliver: `if size:` (Python
truthiness — `None` and `0` are both falsy) fetch at most `size` rows,
else fetch all rows. -/
def dbselect (result : List Row) (size : Option Int) : List Row :=
  match size with
  | none => result
  | some n => if n != 0 then fetchmany n result else result

/-- Observable events of one `orm.execute` call against the connection
pool and the leased connection. -/
inductive DbEvent : Type where
  | acquire : DbEvent
  | tbegin : DbEvent
  | texec : DbEvent
  | tcommit : DbEvent
  | trollback : DbEvent
  | release : DbEvent
deriving DecidableEq, Repr

/-- Behaviour of the driver during one `orm.execute` call: whether each
awaited operation raises (`some errorMessage`) or succeeds, and the
`cur.rowcount` reported after a successful execution. -/
structure Driver : Type where
  beginErr : Option String
  execErr : Option String
  rowcount : Nat
  commitErr : Option String
  rollbackErr : Option String

/-- `orm.execute` (orm.py lines 45-60), evaluated against a driver
behaviour; returns the event trace of the leased connection and the
result (`affected` row count, or the propagated exception).

Control flow of the source: the connection is leased by
`async with __pool.get()` (hence `release` is the last event on every
path, including exceptional ones); `conn.begin()` runs before the `try`
when `autocommit` is false; the `try` covers `cur.execute` and the
`conn.commit()`; `except BaseException` rolls back (when not
autocommitting) and re-raises; if the rollback itself raises, that
exception replaces the original one. -/
def execute (autocommit : Bool) (d : Driver) : List DbEvent × Except String Nat :=
  if autocommit then
    match d.execErr with
    | some e => ([.acquire, .texec, .release], .error e)
    | none => ([.acquire, .texec, .release], .ok d.rowcount)
  else
    match d.beginErr with
    | some e => ([.acquire, .tbegin, .release], .error e)
    | none =>
        match d.execErr with
        | some e =>
            match d.rollbackErr with
            | some e2 =>
                ([.acquire, .tbegin, .texec, .trollback, .release], .error e2)
            | none =>
                ([.acquire, .tbegin, .texec, .trollback, .release], .error e)
        | none =>
            match d.commitErr with
            | some e =>
                match d.rollbackErr with
                | some e2 =>
                    ([.acquire, .tbegin, .texec, .tcommit, .trollback, .release],
                      .error e2)
                | none =>
                    ([.acquire, .tbegin, .texec, .tcommit, .trollback, .release],
                      .error e)
            | none =>
                ([.acquire, .tbegin, .texec, .tcommit, .release], .ok d.rowcount)

/-! ## orm.py: `Model.findAll` SQL assembly -/

/-- `isinstance(limit, int)` for the modelled value universe. -/
def isIntLimit : PyVal → Bool
  | .vint _ => true
  | _ => false

/-- `isinstance(limit, tuple) and len(limit) == 2`. -/
def isPair2 : PyVal → Bool
  | .vtuple xs => xs.length == 2
  | _ => false

/-- `limit is None`. -/
def isNone : PyVal → Bool
  | .vnone => true
  | _ => false

/-- The `sql` fragment list of `Model.findAll` before the limit handling
(orm.py lines 187-196): the canned SELECT, then `where <clause>` when a
truthy `where` was given, then `order by <clause>` when a truthy
`orderBy` was given. -/
def findAllBase (selectSql : String) (whereC : Option String)
    (orderBy : Option String) : List String :=
  let sql := [selectSql]
  let sql :=
    match whereC with
    | some w => if w ≠ "" then sql ++ ["where", w] else sql
    | none => sql
  match orderBy with
  | some o => if o ≠ "" then sql ++ ["order by", o] else sql
  | none => sql

/-- The SQL/argument assembly of `Model.findAll` (orm.py lines 187-207)
up to the `select` call on line 208: fragment list plus final argument
list, or the `ValueError` raised for an invalid `limit` shape.

`argsIn` is the caller's `args` (Python `None` becomes a fresh `[]`).
When the caller supplies a list, `args.append(limit)` /
`args.extend(limit)` mutate that list object in place, so the returned
argument list is also the state of the caller's list after the call.
The source appends the fragment `'limit'` before inspecting the shape of
`limit`; since the `sql` list is discarded when `ValueError` is raised,
the fragments are appended here in one step per branch. -/
def findAllParts (selectSql : String) (whereC : Option String)
    (argsIn : Option (List PyVal)) (orderBy : Option String)
    (limit : PyVal) : Except String (List String × List PyVal) :=
  let sql := findAllBase selectSql whereC orderBy
  let args := argsIn.getD []
  match limit with
  | .vnone => .ok (sql, args)
  | .vint n => .ok (sql ++ ["limit", "?"], args ++ [.vint n])
  | .vtuple xs =>
      if xs.length = 2 then .ok (sql ++ ["limit", "?, ?"], args ++ xs)
      else .error ("Invalid limit value: " ++ pyStr (.vtuple xs))
  | v => .error ("Invalid limit value: " ++ pyStr v)

/-- The SQL text `' '.join(sql)` actually passed to `select`
(orm.py line 208), paired with the final argument list. -/
def findAllQuery (selectSql : String) (whereC : Option String)
    (argsIn : Option (List PyVal)) (orderBy : Option String)
    (limit : PyVal) : Except String (String × List PyVal) :=
  match findAllParts selectSql whereC argsIn orderBy limit with
  | .error e => .error e
  | .ok (parts, args) => .ok (joinWith " " parts, args)

/-! ## orm.py: Model instances, `getValueOrDefault` and `save` -/

/-- `Model.getValue` (orm.py lines 170-171): `getattr(self, key, None)`,
where `Model.__getattr__` reads the instance dict. -/
def getValue (inst : List (String × PyVal)) (key : String) : PyVal :=
  match dictGet inst key with
  | some v => v
  | none => .vnone

/-- `Model.getValueOrDefault` (orm.py lines 173-181): when the stored
value `is None` (covers both an absent key and an explicitly stored
`None`), consult `self.__mappings__[key]`; when that field's default is
not `None`, compute it (calling it when callable), cache it on the
instance with `setattr`, and return it.  A `key` absent from `mappings`
would raise `KeyError` in Python (`.error` here); the ORM only passes
declared field names. -/
def getValueOrDefault (mappings : List (String × Field))
    (inst : List (String × PyVal)) (key : String) :
    Except String (PyVal × List (String × PyVal)) :=
  match getValue inst key with
  | .vnone =>
      match dictGetF mappings key with
      | none => .error ("KeyError: " ++ key)
      | some field =>
          match field.default with
          | .dnone => .ok (.vnone, inst)
          | .dval v => .ok (v, dictSet inst key v)
          | .dfun v => .ok (v, dictSet inst key v)
  | v => .ok (v, inst)

/-- Sequential `getValueOrDefault` over a list of keys, threading the
instance state (each call may cache a default on the instance), and
collecting the produced values in order.  This is
`list(map(self.getValueOrDefault, keys))` with Python's left-to-right
evaluation. -/
def gvodList (mappings : List (String × Field)) :
    List String → List (String × PyVal) →
    Except String (List PyVal × List (String × PyVal))
  | [], inst => .ok ([], inst)
  | k :: ks, inst =>
      match getValueOrDefault mappings inst k with
      | .error e => .error e
      | .ok (v, inst1) =>
          match gvodList mappings ks inst1 with
          | .error e => .error e
          | .ok (vs, inst2) => .ok (v :: vs, inst2)

/-- The argument assembly of `Model.save` (orm.py lines 234-236):
`args = list(map(self.getValueOrDefault, self.__fields__))` followed by
`args.append(self.getValueOrDefault(self.__primary_key__))`.  Returns
the INSERT argument list and the (possibly default-enriched) instance. -/
def saveArgs (mappings : List (String × Field)) (fields : List String)
    (pk : String) (inst : List (String × PyVal)) :
    Except String (List PyVal × List (String × PyVal)) :=
  gvodList mappings (fields ++ [pk]) inst

/-! ## coroweb.py: signature inspection and `RequestHandler` -/

/-- `inspect.Parameter.kind`. -/
inductive ParamKind : Type where
  | positionalOnly : ParamKind
  | positionalOrKeyword : ParamKind
  | varPositional : ParamKind
  | keywordOnly : ParamKind
  | varKeyword : ParamKind
deriving DecidableEq, Repr

/-- One declared parameter of a view function: its name, kind, and
whether it carries a default value (`param.default` is not
`inspect.Parameter.empty`). -/
structure Param : Type where
  name : String
  kind : ParamKind
  hasDefault : Bool

/-- `get_required_kw_args` (coroweb.py lines 54-61): names of
keyword-only parameters without a default, in declaration order. -/
def get_required_kw_args : List Param → List String
  | [] => []
  | p :: rest =>
      if p.kind = ParamKind.keywordOnly ∧ p.hasDefault = false then
        p.name :: get_required_kw_args rest
      else get_required_kw_args rest

/-- `get_named_kw_args` (coroweb.py lines 64-70): names of all
keyword-only parameters, in declaration order. -/
def get_named_kw_args : List Param → List String
  | [] => []
  | p :: rest =>
      if p.kind = ParamKind.keywordOnly then p.name :: get_named_kw_args rest
      else get_named_kw_args rest

/-- `has_named_kw_args` (coroweb.py lines 73-77). -/
def has_named_kw_args (fn : List Param) : Bool :=
  fn.any (fun p => p.kind == ParamKind.keywordOnly)

/-- `has_var_kw_arg` (coroweb.py lines 80-84). -/
def has_var_kw_arg (fn : List Param) : Bool :=
  fn.any (fun p => p.kind == ParamKind.varKeyword)

/-- The loop of `has_request_arg` (coroweb.py lines 87-98), carrying the
`found` flag: a parameter named `request` sets the flag; any later
parameter that is positional (neither `VAR_POSITIONAL`, `KEYWORD_ONLY`
nor `VAR_KEYWORD`) raises `ValueError`. -/
def hasRequestArgLoop : List Param → Bool → Except String Bool
  | [], found => .ok found
  | p :: rest, found =>
      if p.name = "request" then hasRequestArgLoop rest true
      else
        if found ∧ p.kind ≠ ParamKind.varPositional ∧
            p.kind ≠ ParamKind.keywordOnly ∧ p.kind ≠ ParamKind.varKeyword then
          .error "request parameter must be the last named parameter in function"
        else hasRequestArgLoop rest found

/-- `has_request_arg` (coroweb.py lines 87-98). -/
def has_request_arg (fn : List Param) : Except String Bool :=
  hasRequestArgLoop fn false

/-- The per-function state `RequestHandler.__init__` computes once at
registration (coroweb.py lines 104-111). -/
structure HandlerInfo : Type where
  hasRequestArg : Bool
  hasVarKwArg : Bool
  hasNamedKwArgs : Bool
  namedKwArgs : List String
  requiredKwArgs : List String

/-- `RequestHandler.__init__` (coroweb.py lines 104-111); fails with the
`ValueError` of `has_request_arg` for a misplaced `request` parameter. -/
def mkHandler (fn : List Param) : Except String HandlerInfo :=
  match has_request_arg fn with
  | .error e => .error e
  | .ok b =>
      .ok { hasRequestArg := b
            hasVarKwArg := has_var_kw_arg fn
            hasNamedKwArgs := has_named_kw_args fn
            namedKwArgs := get_named_kw_args fn
            requiredKwArgs := get_required_kw_args fn }

/-- The parts of an `aiohttp.web.Request` that
`RequestHandler.__call__` reads.  `content_type` is `""` when missing
(the falsy case of `if not request.content_type`); `json_body` is the
value `await request.json()` decodes to; `post_body` the parsed form
data; `query_parsed` the result of `parse.parse_qs(query_string, True)`
(whose value lists are never empty); `match_info` the path-matched route
variables (always strings). -/
structure Request : Type where
  method : String
  content_type : String
  json_body : PyVal
  post_body : List (String × PyVal)
  query_string : String
  query_parsed : List (String × List String)
  match_info : List (String × String)

/-- Body/query parsing of `RequestHandler.__call__` (coroweb.py lines
115-154): produces the parameter dict `kw` (`none` models Python's
`kw is None`), or the early `HTTPBadRequest` text (`.error`). -/
def parseBody (h : HandlerInfo) (req : Request) :
    Except String (Option (List (String × PyVal))) :=
  if h.hasVarKwArg || h.hasNamedKwArgs then
    if req.method = "POST" then
      if req.content_type = "" then .error "Missing Content-Type."
      else
        let ct := strToLower req.content_type
        if strStartsWith ct "application/json" then
          match req.json_body with
          | .vdict params => .ok (some params)
          | _ => .error "JSON body must be object."
        else
          if strStartsWith ct "application/x-www-form-urlencoded" ||
              strStartsWith ct "multipart/form-data" then
            .ok (some req.post_body)
          else .error ("Unsupported Content-Type: " ++ req.content_type)
    else
      if req.method = "GET" then
        if req.query_string = "" then .ok none
        else
          .ok (some (req.query_parsed.map
            (fun kv => (kv.1, PyVal.vstr (kv.2.headD "")))))
      else .ok none
  else .ok none

/-- Argument assembly of `RequestHandler.__call__` (coroweb.py lines
115-180): parse body/query into `kw`; when nothing was produced, take
the path-match variables; otherwise whitelist-filter to the declared
keyword-only names (when the function has no `**kw` but does have named
keyword parameters) and merge the path-match variables over `kw`
(path variable wins on collision); finally inject the request object
under `request` when the function declares it. -/
def assembleKw (h : HandlerInfo) (req : Request) :
    Except String (List (String × PyVal)) :=
  match parseBody h req with
  | .error e => .error e
  | .ok kwOpt =>
      let kw :=
        match kwOpt with
        | none => req.match_info.map (fun kv => (kv.1, PyVal.vstr kv.2))
        | some kw0 =>
            let kw1 :=
              if !h.hasVarKwArg && h.hasNamedKwArgs then
                h.namedKwArgs.foldl (fun copy n =>
                  match dictGet kw0 n with
                  | some v => copy ++ [(n, v)]
                  | none => copy) []
              else kw0
            req.match_info.foldl
              (fun acc kv => dictSet acc kv.1 (.vstr kv.2)) kw1
      .ok (if h.hasRequestArg then dictSet kw "request" .vrequest else kw)

/-- The required-argument check of `RequestHandler.__call__`
(coroweb.py lines 182-186): the first required keyword-only name missing
from `kw`, if any (the loop returns on the first missing name). -/
def firstMissing (required : List String) (kw : List (String × PyVal)) :
    Option String :=
  match required with
  | [] => none
  | n :: rest => if dictHas kw n then firstMissing rest kw else some n

/-- The outcome of `RequestHandler.__call__`: an `HTTPBadRequest` with
the given text, or the view function invoked with the assembled keyword
arguments. -/
inductive CallResult : Type where
  | badRequest (text : String) : CallResult
  | invoked (kw : List (String × PyVal)) : CallResult

/-- Whether the view function was invoked. -/
def CallResult.isInvoked : CallResult → Bool
  | .invoked _ => true
  | _ => false

/-- `RequestHandler.__call__` (coroweb.py lines 113-191) up to the
invocation of the view function: assemble the arguments (early
`HTTPBadRequest` on parse failures), then return `HTTPBadRequest`
naming the first missing required keyword-only argument, else invoke
the function with the assembled arguments. -/
def call (h : HandlerInfo) (req : Request) : CallResult :=
  match assembleKw h req with
  | .error t => .badRequest t
  | .ok kw =>
      match firstMissing h.requiredKwArgs kw with
      | some n => .badRequest ("Missing argument: " ++ n)
      | none => .invoked kw

/-! ## app.py: `response_factory` coercion -/

/-- The concrete `web.Response` shapes `response_factory` builds. -/
inductive Resp : Type where
  | passthrough : Resp
  | octet (body : List Nat) : Resp
  | redirect (location : String) : Resp
  | html (body : String) : Resp
  | json (payload : List (String × PyVal)) : Resp
  | template (tpl : PyVal) (ctx : List (String × PyVal)) : Resp
  | statusOnly (code : Int) : Resp
  | statusText (code : Int) (text : String) : Resp
  | plain (body : String) : Resp

/-- Whether a coerced response is the `(status, message)` form. -/
def Resp.isStatusText : Resp → Bool
  | .statusText _ _ => true
  | _ => false

/-- The fall-through default of `response_factory` (app.py lines
156-158): a `text/plain` response of `str(r)`. -/
def defaultResp (r : PyVal) : Resp := .plain (pyStr r)

/-- The coercion of `response_factory` (app.py lines 110-158), by the
shape of the handler's return value `r`, first match wins:
a `StreamResponse` passes through; `bytes` become an octet-stream body;
a string starting with `redirect:` becomes a redirect to its remainder,
any other string an HTML body; a dict without a truthy `__template__`
key is JSON-serialized, with one it is rendered as that template over
the dict extended with `__user__ = request.__user__`; an `int` in
`[100, 600)` becomes a bare status; a two-element *tuple* whose first
element is an `int` in `[100, 600)` becomes a status response carrying
`str(message)`; everything else falls through to `str(r)` as
`text/plain`. -/
def response_factory (user : PyVal) (r : PyVal) : Resp :=
  match r with
  | .vstream => .passthrough
  | .vbytes b => .octet b
  | .vstr s =>
      if strStartsWith s "redirect:" then .redirect (s.drop 9) else .html s
  | .vdict kvs =>
      match dictGet kvs "__template__" with
      | none => .json kvs
      | some .vnone => .json kvs
      | some t => .template t (dictSet kvs "__user__" user)
  | .vint n =>
      if 100 ≤ n ∧ n < 600 then .statusOnly n else defaultResp (.vint n)
  | .vtuple xs =>
      match xs with
      | [sc, msg] =>
          match sc with
          | .vint n =>
              if 100 ≤ n ∧ n < 600 then .statusText n (pyStr msg)
              else defaultResp (.vtuple xs)
          | _ => defaultResp (.vtuple xs)
      | _ => defaultResp (.vtuple xs)
  | v => defaultResp v

/-- `isinstance(x, int) and 100 <= x < 600` on a modelled value. -/
def isIntInRange (v : PyVal) : Bool :=
  match v with
  | .vint n => decide (100 ≤ n ∧ n < 600)
  | _ => false

/-! ## Concrete fixtures used by the scenario claims -/

/-- The signature `(id, *, name, request)` of the handler in the C3
scenario: one positional-or-keyword parameter and two keyword-only
parameters, none with a default. -/
def c3Fn : List Param :=
  [⟨"id", .positionalOrKeyword, false⟩,
   ⟨"name", .keywordOnly, false⟩,
   ⟨"request", .keywordOnly, false⟩]

/-- The registration-time state `RequestHandler.__init__` computes for
`c3Fn`. -/
def c3Info : HandlerInfo :=
  { hasRequestArg := true
    hasVarKwArg := false
    hasNamedKwArgs := true
    namedKwArgs := ["name", "request"]
    requiredKwArgs := ["name", "request"] }

/-- The C3 request: a POST with `Content-Type: application/json`, JSON
body `{"name": "x", "extra": "y"}`, and path-match variable `id=42`. -/
def c3Req : Request where
  method := "POST"
  content_type := "application/json"
  json_body := .vdict [("name", .vstr "x"), ("extra", .vstr "y")]
  post_body := []
  query_string := ""
  query_parsed := []
  match_info := [("id", "42")]

/-! ## Helper lemmas -/

theorem joinWith_cons (sep z : String) (zs : List String) (h : zs ≠ []) :
    joinWith sep (z :: zs) = z ++ sep ++ joinWith sep zs := by
  cases zs with
  | nil => exact absurd rfl h
  | cons w ws => rfl

theorem joinWith_append_two (sep a b : String) :
    ∀ (l : List String), l ≠ [] →
      joinWith sep (l ++ [a, b]) =
        joinWith sep l ++ sep ++ a ++ sep ++ b := by
  intro l
  induction l with
  | nil => intro h; exact absurd rfl h
  | cons x xs ih =>
      intro _
      cases xs with
      | nil => simp [joinWith, String.append_assoc]
      | cons y ys =>
          have h2 : (y :: ys : List String) ≠ [] := by simp
          rw [show ((x :: y :: ys : List String) ++ [a, b]) =
                x :: ((y :: ys) ++ [a, b]) from rfl,
              joinWith_cons sep x _ (by simp),
              ih h2, joinWith_cons sep x _ h2]
          simp [String.append_assoc]

theorem findAllBase_cons (selectSql : String) (whereC orderBy : Option String) :
    ∃ rest, findAllBase selectSql whereC orderBy = selectSql :: rest := by
  unfold findAllBase
  rcases whereC with _ | w <;> rcases orderBy with _ | o <;> dsimp only <;>
    repeat' split
  all_goals exact ⟨_, rfl⟩

theorem findAllBase_ne_nil (selectSql : String) (whereC orderBy : Option String) :
    findAllBase selectSql whereC orderBy ≠ [] := by
  obtain ⟨rest, hr⟩ := findAllBase_cons selectSql whereC orderBy
  simp [hr]

/-! ## Claim theorems -/

/-- C3: for a registered handler declaring `(id, *, name, request)`, a
POST request with Content-Type `application/json`, JSON body
`{"name": "x", "extra": "y"}` and path-match variable `id=42`,
`RequestHandler.__call__` invokes the handler with exactly the
arguments `name="x"`, `id="42"` (the path variable merged in) and
`request=<the request object>`: the undeclared key `extra` is discarded
by the whitelist filter (the function has no `VAR_KEYWORD` parameter
and `name` is among its keyword-only parameters), and the request
object is injected under the name `request`. -/
theorem c3_call_whitelists_merges_and_injects :
    mkHandler c3Fn = .ok c3Info ∧
    call c3Info c3Req =
      .invoked [("name", .vstr "x"), ("id", .vstr "42"), ("request", .vrequest)] :=
  ⟨rfl, rfl⟩

/-- C4: for `execute(sql, args, autocommit=False)`: the leased
connection is released last on every path (also with autocommit); when
`begin` succeeds, the transaction is begun before the statement runs;
an exception during execution rolls the transaction back and is
re-raised to the caller; on success the transaction is committed and
the affected-row count is returned. -/
theorem c4_execute_transaction_control (d : Driver) (e : String) :
    ((execute false d).1.getLast? = some DbEvent.release ∧
      (execute true d).1.getLast? = some DbEvent.release) ∧
    (d.beginErr = none →
      (∃ l, (execute false d).1 =
          [DbEvent.acquire, DbEvent.tbegin, DbEvent.texec] ++ l) ∧
      (d.execErr = some e → d.rollbackErr = none →
        execute false d =
          ([DbEvent.acquire, DbEvent.tbegin, DbEvent.texec,
            DbEvent.trollback, DbEvent.release], .error e)) ∧
      (d.execErr = none → d.commitErr = none →
        execute false d =
          ([DbEvent.acquire, DbEvent.tbegin, DbEvent.texec,
            DbEvent.tcommit, DbEvent.release], .ok d.rowcount))) := by
  obtain ⟨b, ex, rc, cm, rb⟩ := d
  cases b <;> cases ex <;> cases cm <;> cases rb <;>
    simp [execute]

/-- C4 witness: a concrete failing driver run with `autocommit=False`
(begin succeeds, the statement raises `boom`, rollback succeeds). -/
theorem c4_execute_transaction_control_witness :
    ((execute false ⟨none, some "boom", 3, none, none⟩).1.getLast? =
        some DbEvent.release ∧
      (execute true ⟨none, some "boom", 3, none, none⟩).1.getLast? =
        some DbEvent.release) ∧
    ((none : Option String) = none →
      (∃ l, (execute false ⟨none, some "boom", 3, none, none⟩).1 =
          [DbEvent.acquire, DbEvent.tbegin, DbEvent.texec] ++ l) ∧
      ((some "boom" : Option String) = some "boom" →
        (none : Option String) = none →
        execute false ⟨none, some "boom", 3, none, none⟩ =
          ([DbEvent.acquire, DbEvent.tbegin, DbEvent.texec,
            DbEvent.trollback, DbEvent.release], .error "boom")) ∧
      ((some "boom" : Option String) = none → (none : Option String) = none →
        execute false ⟨none, some "boom", 3, none, none⟩ =
          ([DbEvent.acquire, DbEvent.tbegin, DbEvent.texec,
            DbEvent.tcommit, DbEvent.release], .ok 3))) :=
  c4_execute_transaction_control ⟨none, some "boom", 3, none, none⟩ "boom"

/-- C5 counterexample: `select` with `size=0` does *not* return at most
0 rows — `if size:` treats 0 as falsy, so all rows are fetched: on a
one-row result the returned sequence still has length 1. -/
theorem c5_select_limit_zero_counterexample :
    dbselect [[("a", PyVal.vint 1)]] (some 0) = [[("a", PyVal.vint 1)]] ∧
    (dbselect [[("a", PyVal.vint 1)]] (some 0)).length = 1 :=
  ⟨rfl, rfl⟩

/-- C5 (amended): `select` returns all rows when no size is given, at
most `size` rows for any *nonzero* size, and — because `0` is falsy in
`if size:` — all rows again when the size is `0`. -/
theorem c5_select_size_caps_rows (result : List Row) (n : Int) (hn : n ≠ 0) :
    dbselect result none = result ∧
    (dbselect result (some n)).length ≤ n.toNat ∧
    dbselect result (some 0) = result := by
  refine ⟨rfl, ?_, rfl⟩
  have hn' : (n != 0) = true := by simpa using hn
  simp only [dbselect, hn', if_true, fetchmany]
  exact List.length_take_le n.toNat result

/-- C5 witness: the amended statement evaluated at a two-row result
with size 1. -/
theorem c5_select_size_caps_rows_witness :
    dbselect [[("a", PyVal.vint 1)], [("a", PyVal.vint 2)]] none =
      [[("a", PyVal.vint 1)], [("a", PyVal.vint 2)]] ∧
    (dbselect [[("a", PyVal.vint 1)], [("a", PyVal.vint 2)]] (some 1)).length ≤
      (1 : Int).toNat ∧
    dbselect [[("a", PyVal.vint 1)], [("a", PyVal.vint 2)]] (some 0) =
      [[("a", PyVal.vint 1)], [("a", PyVal.vint 2)]] :=
  c5_select_size_caps_rows [[("a", PyVal.vint 1)], [("a", PyVal.vint 2)]] 1
    (by decide)

/-- C6 counterexample: a two-element *list* `[200, "OK"]` is not
converted to a status response — `isinstance(r, tuple)` fails, so it
falls through to the default `str(r)` plain-text case. -/
theorem c6_list_pair_counterexample :
    response_factory PyVal.vnone (PyVal.vlist [PyVal.vint 200, PyVal.vstr "OK"]) =
      Resp.plain "[200, 'OK']" ∧
    (response_factory PyVal.vnone
        (PyVal.vlist [PyVal.vint 200, PyVal.vstr "OK"])).isStatusText = false := by
  constructor
  · simp only [response_factory, defaultResp, pyStr, pyRepr, pyReprList, joinWith]
    rfl
  · simp [response_factory, defaultResp, pyStr, Resp.isStatusText]

/-- C6 (amended): only a two-element *tuple* `(status, message)` whose
first element is an integer in `[100, 600)` is coerced to a status
response carrying `str(message)`; a tuple whose first element is not an
integer in that range, and any two-element list, fall through to the
default plain-text `str(r)` response. -/
theorem c6_tuple_pair_coercion (u m sc b : PyVal) (xs : List PyVal) (n : Int)
    (h1 : 100 ≤ n) (h2 : n < 600) (h3 : isIntInRange sc = false) :
    response_factory u (.vtuple [.vint n, m]) = .statusText n (pyStr m) ∧
    response_factory u (.vtuple [sc, b]) = defaultResp (.vtuple [sc, b]) ∧
    response_factory u (.vlist xs) = defaultResp (.vlist xs) := by
  refine ⟨?_, ?_, rfl⟩
  · simp [response_factory, h1, h2]
  · cases sc with
    | vint k =>
        have : ¬(100 ≤ k ∧ k < 600) := by
          simpa [isIntInRange] using h3
        simp [response_factory, this]
    | vnone => rfl
    | vstr s => rfl
    | vbytes bs => rfl
    | vtuple ys => rfl
    | vlist ys => rfl
    | vdict kvs => rfl
    | vrequest => rfl
    | vstream => rfl

/-- C6 witness: the amended statement at `(404, 'Not Found')`, a tuple
with out-of-range first element `(99, "x")`, and the list
`[200, "OK"]`. -/
theorem c6_tuple_pair_coercion_witness :
    response_factory PyVal.vnone (.vtuple [.vint 404, .vstr "Not Found"]) =
      .statusText 404 (pyStr (.vstr "Not Found")) ∧
    response_factory PyVal.vnone (.vtuple [.vint 99, .vstr "x"]) =
      defaultResp (.vtuple [.vint 99, .vstr "x"]) ∧
    response_factory PyVal.vnone (.vlist [.vint 200, .vstr "OK"]) =
      defaultResp (.vlist [.vint 200, .vstr "OK"]) :=
  c6_tuple_pair_coercion PyVal.vnone (.vstr "Not Found") (.vint 99) (.vstr "x")
    [.vint 200, .vstr "OK"] 404 (by decide) (by decide) (by decide)

theorem str_glue (a s1 s2 s3 s4 : String) :
    a ++ s1 ++ s2 ++ s3 ++ s4 = a ++ (s1 ++ s2 ++ s3 ++ s4) := by
  simp [String.append_assoc]

/-- C2: `findAll` with a non-`None` limit: a single integer appends
`limit ?` to the built SELECT and passes the integer as an extra
parameter; a two-element tuple appends `limit ?, ?` and passes both
values (offset, count); any other shape raises
`ValueError('Invalid limit value: ...')` and no query result is
produced. -/
theorem c2_findall_limit_shapes (sel : String) (w : Option String)
    (a : Option (List PyVal)) (o : Option String) (n : Int) (x y v : PyVal)
    (hv1 : isIntLimit v = false) (hv2 : isPair2 v = false)
    (hv3 : isNone v = false) :
    (∃ p, findAllQuery sel w a o (.vint n) =
        .ok (p ++ " limit ?", a.getD [] ++ [.vint n])) ∧
    (∃ p, findAllQuery sel w a o (.vtuple [x, y]) =
        .ok (p ++ " limit ?, ?", a.getD [] ++ [x, y])) ∧
    findAllQuery sel w a o v = .error ("Invalid limit value: " ++ pyStr v) := by
  refine ⟨⟨joinWith " " (findAllBase sel w o), ?_⟩,
    ⟨joinWith " " (findAllBase sel w o), ?_⟩, ?_⟩
  · dsimp only [findAllQuery, findAllParts]
    rw [joinWith_append_two " " "limit" "?" _ (findAllBase_ne_nil sel w o),
      str_glue]
    rfl
  · change Except.ok
      (joinWith " " (findAllBase sel w o ++ ["limit", "?, ?"]),
        a.getD [] ++ [x, y]) = _
    rw [joinWith_append_two " " "limit" "?, ?" _ (findAllBase_ne_nil sel w o),
      str_glue]
    rfl
  · cases v with
    | vnone => simp [isNone] at hv3
    | vint k => simp [isIntLimit] at hv1
    | vtuple xs =>
        have hlen : xs.length ≠ 2 := by simpa [isPair2] using hv2
        simp [findAllQuery, findAllParts, hlen]
    | vstr s => rfl
    | vbytes bs => rfl
    | vlist xs => rfl
    | vdict kvs => rfl
    | vrequest => rfl
    | vstream => rfl

/-- C2 witness: `limit=5`, `limit=(10, 5)` and `limit="x"` on a
concrete SELECT with one caller argument. -/
theorem c2_findall_limit_shapes_witness :
    (∃ p, findAllQuery "select `id` from `User`" none (some [.vstr "a"]) none
        (.vint 5) = .ok (p ++ " limit ?",
          (some [PyVal.vstr "a"]).getD [] ++ [.vint 5])) ∧
    (∃ p, findAllQuery "select `id` from `User`" none (some [.vstr "a"]) none
        (.vtuple [.vint 10, .vint 5]) = .ok (p ++ " limit ?, ?",
          (some [PyVal.vstr "a"]).getD [] ++ [.vint 10, .vint 5])) ∧
    findAllQuery "select `id` from `User`" none (some [.vstr "a"]) none
        (.vstr "x") =
      .error ("Invalid limit value: " ++ pyStr (.vstr "x")) :=
  c2_findall_limit_shapes "select `id` from `User`" none (some [.vstr "a"])
    none 5 (.vint 10) (.vint 5) (.vstr "x") rfl rfl rfl

/-- C10: `findAll` with a caller-supplied `args` list and a limit that
is not `None` (and does not raise): the list `args.append` /
`args.extend` mutate in place — the argument list after the call is the
caller's list extended by at least one element, hence strictly longer
than what the caller passed in. -/
theorem c10_findall_extends_caller_args (sel : String) (w : Option String)
    (a : List PyVal) (o : Option String) (lim : PyVal) (sqlp : List String)
    (args2 : List PyVal)
    (hok : findAllParts sel w (some a) o lim = .ok (sqlp, args2))
    (hlim : isNone lim = false) :
    ∃ extra, extra ≠ [] ∧ args2 = a ++ extra ∧ a.length < args2.length := by
  cases lim with
  | vnone => simp [isNone] at hlim
  | vint n =>
      refine ⟨[.vint n], by simp, ?_, ?_⟩ <;>
        · simp only [findAllParts, Option.getD, Except.ok.injEq, Prod.mk.injEq]
            at hok
          simp [← hok.2]
  | vtuple xs =>
      by_cases h2 : xs.length = 2
      · have hargs : args2 = a ++ xs := by
          simp only [findAllParts, h2, if_true, Option.getD, Except.ok.injEq,
            Prod.mk.injEq] at hok
          exact hok.2.symm
        have hxs : xs ≠ [] := by
          intro h
          rw [h] at h2
          simp at h2
        refine ⟨xs, hxs, hargs, ?_⟩
        rw [hargs]
        have : 0 < xs.length := by
          rw [h2]; decide
        simp [this]
      · simp [findAllParts, h2] at hok
  | vstr s => simp [findAllParts] at hok
  | vbytes bs => simp [findAllParts] at hok
  | vlist xs => simp [findAllParts] at hok
  | vdict kvs => simp [findAllParts] at hok
  | vrequest => simp [findAllParts] at hok
  | vstream => simp [findAllParts] at hok

/-- C10 witness: a caller list of one element grows to two with
`limit=7`. -/
theorem c10_findall_extends_caller_args_witness :
    ∃ extra, extra ≠ [] ∧
      ([PyVal.vstr "q", PyVal.vint 7] : List PyVal) = [PyVal.vstr "q"] ++ extra ∧
      ([PyVal.vstr "q"] : List PyVal).length <
        ([PyVal.vstr "q", PyVal.vint 7] : List PyVal).length :=
  c10_findall_extends_caller_args "S" none [.vstr "q"] none (.vint 7)
    ["S", "limit", "?"] [.vstr "q", .vint 7] rfl rfl

theorem scan_zero_none :
    ∀ (attrs : List (String × Attr)) (m : List (String × Field))
      (f : List String), countPrimary attrs = 0 →
      scanFields attrs m f none = .error "Primary key not found." := by
  intro attrs
  induction attrs with
  | nil => intro m f _; rfl
  | cons kv rest ih =>
      intro m f h0
      obtain ⟨k, a⟩ := kv
      cases a with
      | aother => exact ih m f (by simpa [countPrimary] using h0)
      | afield v =>
          have hpk : v.primary_key = false := by
            by_contra hc
            rw [Bool.not_eq_false] at hc
            simp [countPrimary, hc] at h0
          have hrest : countPrimary rest = 0 := by
            simpa [countPrimary, hpk] using h0
          simp only [scanFields, hpk, Bool.false_eq_true, if_false]
          exact ih _ _ hrest

theorem scan_zero_some :
    ∀ (attrs : List (String × Attr)) (m : List (String × Field))
      (f : List String) (p : String), p ≠ "" → countPrimary attrs = 0 →
      ∃ m2 f2, scanFields attrs m f (some p) = .ok (m2, f2, p) := by
  intro attrs
  induction attrs with
  | nil =>
      intro m f p hp _
      refine ⟨m, f, ?_⟩
      simp only [scanFields]
      rw [if_pos (by simpa using hp)]
  | cons kv rest ih =>
      intro m f p hp h0
      obtain ⟨k, a⟩ := kv
      cases a with
      | aother => exact ih m f p hp (by simpa [countPrimary] using h0)
      | afield v =>
          have hpk : v.primary_key = false := by
            by_contra hc
            rw [Bool.not_eq_false] at hc
            simp [countPrimary, hc] at h0
          have hrest : countPrimary rest = 0 := by
            simpa [countPrimary, hpk] using h0
          simp only [scanFields, hpk, Bool.false_eq_true, if_false]
          exact ih _ _ p hp hrest

theorem scan_one_none :
    ∀ (attrs : List (String × Attr)) (m : List (String × Field))
      (f : List String), (∀ kv ∈ attrs, kv.1 ≠ "") →
      countPrimary attrs = 1 →
      ∃ r, scanFields attrs m f none = .ok r := by
  intro attrs
  induction attrs with
  | nil => intro m f _ h1; simp [countPrimary] at h1
  | cons kv rest ih =>
      intro m f hkeys h1
      obtain ⟨k, a⟩ := kv
      cases a with
      | aother =>
          exact ih m f (fun kv hkv => hkeys kv (List.mem_cons_of_mem _ hkv))
            (by simpa [countPrimary] using h1)
      | afield v =>
          by_cases hpk : v.primary_key = true
          · have hk : k ≠ "" := hkeys (k, .afield v) (List.mem_cons_self _ _)
            have hrest : countPrimary rest = 0 := by
              simpa [countPrimary, hpk] using h1
            simp only [scanFields, hpk, if_true, pyTruthyStrOpt,
              Bool.false_eq_true, if_false]
            obtain ⟨m2, f2, hok⟩ := scan_zero_some rest _ f k hk hrest
            exact ⟨(m2, f2, k), hok⟩
          · rw [Bool.not_eq_true] at hpk
            simp only [scanFields, hpk, Bool.false_eq_true, if_false]
            exact ih _ _ (fun kv hkv => hkeys kv (List.mem_cons_of_mem _ hkv))
              (by simpa [countPrimary, hpk] using h1)

theorem scan_dup_some :
    ∀ (attrs : List (String × Attr)) (m : List (String × Field))
      (f : List String) (p : String), p ≠ "" → 1 ≤ countPrimary attrs →
      ∃ k, scanFields attrs m f (some p) =
        .error ("Duplicate primary key for field: " ++ k) := by
  intro attrs
  induction attrs with
  | nil => intro m f p _ h1; simp [countPrimary] at h1
  | cons kv rest ih =>
      intro m f p hp h1
      obtain ⟨k, a⟩ := kv
      cases a with
      | aother => exact ih m f p hp (by simpa [countPrimary] using h1)
      | afield v =>
          by_cases hpk : v.primary_key = true
          · refine ⟨k, ?_⟩
            simp only [scanFields, hpk, if_true]
            rw [if_pos (by simp [pyTruthyStrOpt, hp])]
          · rw [Bool.not_eq_true] at hpk
            simp only [scanFields, hpk, Bool.false_eq_true, if_false]
            exact ih _ _ p hp (by simpa [countPrimary, hpk] using h1)

theorem scan_dup_none :
    ∀ (attrs : List (String × Attr)) (m : List (String × Field))
      (f : List String), (∀ kv ∈ attrs, kv.1 ≠ "") →
      2 ≤ countPrimary attrs →
      ∃ k, scanFields attrs m f none =
        .error ("Duplicate primary key for field: " ++ k) := by
  intro attrs
  induction attrs with
  | nil => intro m f _ h2; simp [countPrimary] at h2
  | cons kv rest ih =>
      intro m f hkeys h2
      obtain ⟨k, a⟩ := kv
      cases a with
      | aother =>
          exact ih m f (fun kv hkv => hkeys kv (List.mem_cons_of_mem _ hkv))
            (by simpa [countPrimary] using h2)
      | afield v =>
          by_cases hpk : v.primary_key = true
          · have hk : k ≠ "" := hkeys (k, .afield v) (List.mem_cons_self _ _)
            have hrest : 1 ≤ countPrimary rest := by
              have := h2
              simp only [countPrimary, hpk, if_true] at this
              omega
            simp only [scanFields, hpk, if_true, pyTruthyStrOpt,
              Bool.false_eq_true, if_false]
            exact scan_dup_some rest _ f k hk hrest
          · rw [Bool.not_eq_true] at hpk
            simp only [scanFields, hpk, Bool.false_eq_true, if_false]
            exact ih _ _ (fun kv hkv => hkeys kv (List.mem_cons_of_mem _ hkv))
              (by simpa [countPrimary, hpk] using h2)

/-- C1: for every class other than `Model` processed by
`ModelMetaclass` (attribute names being Python identifiers, hence
nonempty), class construction succeeds exactly when precisely one
declared `Field` attribute has `primary_key` set; with none, the
definition fails with `RuntimeError('Primary key not found.')`, and with
two or more it fails with
`RuntimeError('Duplicate primary key for field: ...')` — in both cases
at class-definition time, before any instance can exist. -/
theorem c1_exactly_one_primary_key (name : String) (tbl : Option String)
    (attrs : List (String × Attr)) (hname : name ≠ "Model")
    (hkeys : ∀ kv ∈ attrs, kv.1 ≠ "") :
    ((∃ meta, modelMetaNew name tbl attrs = .ok (some meta)) ↔
      countPrimary attrs = 1) ∧
    (countPrimary attrs = 0 →
      modelMetaNew name tbl attrs = .error "Primary key not found.") ∧
    (2 ≤ countPrimary attrs →
      ∃ k, modelMetaNew name tbl attrs =
        .error ("Duplicate primary key for field: " ++ k)) := by
  simp only [modelMetaNew, if_neg hname]
  refine ⟨⟨?_, ?_⟩, ?_, ?_⟩
  · rintro ⟨meta, hmeta⟩
    rcases hc : countPrimary attrs with _ | c
    · rw [scan_zero_none attrs [] [] hc] at hmeta
      exact absurd hmeta (by simp)
    · cases c with
      | zero => rfl
      | succ c2 =>
          obtain ⟨k, hk⟩ := scan_dup_none attrs [] [] hkeys (by omega)
          rw [hk] at hmeta
          exact absurd hmeta (by simp)
  · intro h1
    obtain ⟨⟨m2, f2, pk⟩, hok⟩ := scan_one_none attrs [] [] hkeys h1
    rw [hok]
    exact ⟨_, rfl⟩
  · intro h0
    rw [scan_zero_none attrs [] [] h0]
  · intro h2
    obtain ⟨k, hk⟩ := scan_dup_none attrs [] [] hkeys h2
    rw [hk]
    exact ⟨k, rfl⟩

/-- A primary-key integer field fixture. -/
def fldId : Field :=
  { name := none, column_type := "bigint", primary_key := true,
    default := .dnone }

/-- A non-key string field fixture declaring the column name
`user_email` (different from its attribute name). -/
def fldEmail : Field :=
  { name := some "user_email", column_type := "varchar(100)",
    primary_key := false, default := .dnone }

/-- Class attributes of the `User` fixture model. -/
def attrsW : List (String × Attr) :=
  [("id", .afield fldId), ("email", .afield fldEmail)]

/-- C1 witness: the `User` fixture has exactly one primary key and its
class construction succeeds. -/
theorem c1_exactly_one_primary_key_witness :
    ((∃ meta, modelMetaNew "User" none attrsW = .ok (some meta)) ↔
      countPrimary attrsW = 1) ∧
    (countPrimary attrsW = 0 →
      modelMetaNew "User" none attrsW = .error "Primary key not found.") ∧
    (2 ≤ countPrimary attrsW →
      ∃ k, modelMetaNew "User" none attrsW =
        .error ("Duplicate primary key for field: " ++ k)) :=
  c1_exactly_one_primary_key "User" none attrsW (by decide)
    (by intro kv hkv; fin_cases hkv <;> decide)

theorem firstMissing_finds :
    ∀ (required : List String) (kw : List (String × PyVal)) (n : String),
      n ∈ required → dictHas kw n = false →
      ∃ m, firstMissing required kw = some m ∧ m ∈ required ∧
        dictHas kw m = false := by
  intro required
  induction required with
  | nil => intro kw n hn; exact absurd hn (List.not_mem_nil n)
  | cons r rest ih =>
      intro kw n hn hmiss
      by_cases hr : dictHas kw r = true
      · have hn' : n ∈ rest := by
          rcases List.mem_cons.mp hn with h | h
          · subst h; rw [hr] at hmiss; cases hmiss
          · exact h
        obtain ⟨m, h1, h2, h3⟩ := ih kw n hn' hmiss
        exact ⟨m, by simp [firstMissing, hr, h1],
          List.mem_cons_of_mem _ h2, h3⟩
      · rw [Bool.not_eq_true] at hr
        exact ⟨r, by simp [firstMissing, hr], List.mem_cons_self _ _, hr⟩

theorem mkHandler_required (fn : List Param) (h : HandlerInfo)
    (hh : mkHandler fn = .ok h) :
    h.requiredKwArgs = get_required_kw_args fn := by
  unfold mkHandler at hh
  cases hra : has_request_arg fn <;> rw [hra] at hh
  · cases hh
  · cases hh; rfl

/-- C7: for every successfully registered handler and every request
whose argument assembly succeeds, if some keyword-only parameter of the
handler without a default is absent from the assembled arguments, then
`RequestHandler.__call__` does not invoke the handler and returns an
`HTTPBadRequest` whose text names a missing required argument. -/
theorem c7_missing_required_arg_bad_request (fn : List Param)
    (h : HandlerInfo) (req : Request) (kw : List (String × PyVal))
    (n : String)
    (hh : mkHandler fn = .ok h)
    (hkw : assembleKw h req = .ok kw)
    (hn : n ∈ get_required_kw_args fn)
    (hmiss : dictHas kw n = false) :
    ∃ m, m ∈ get_required_kw_args fn ∧ dictHas kw m = false ∧
      call h req = .badRequest ("Missing argument: " ++ m) ∧
      (call h req).isInvoked = false := by
  have hreq : h.requiredKwArgs = get_required_kw_args fn :=
    mkHandler_required fn h hh
  obtain ⟨m, h1, h2, h3⟩ :=
    firstMissing_finds (get_required_kw_args fn) kw n hn hmiss
  refine ⟨m, h2, h3, ?_, ?_⟩ <;>
    simp [call, hkw, hreq, h1, CallResult.isInvoked]

/-- The signature `(*, name)` of the C7 witness handler: a single
required keyword-only parameter. -/
def c7Fn : List Param := [⟨"name", .keywordOnly, false⟩]

/-- The registration-time state computed for `c7Fn`. -/
def c7Info : HandlerInfo :=
  { hasRequestArg := false
    hasVarKwArg := false
    hasNamedKwArgs := true
    namedKwArgs := ["name"]
    requiredKwArgs := ["name"] }

/-- A GET request with no query string and no path variables: the
assembled arguments are empty. -/
def c7Req : Request where
  method := "GET"
  content_type := ""
  json_body := .vnone
  post_body := []
  query_string := ""
  query_parsed := []
  match_info := []

/-- C7 witness: calling the `(*, name)` handler on an empty GET yields
`HTTPBadRequest('Missing argument: name')`. -/
theorem c7_missing_required_arg_bad_request_witness :
    ∃ m, m ∈ get_required_kw_args c7Fn ∧ dictHas [] m = false ∧
      call c7Info c7Req = .badRequest ("Missing argument: " ++ m) ∧
      (call c7Info c7Req).isInvoked = false :=
  c7_missing_required_arg_bad_request c7Fn c7Info c7Req [] "name" rfl rfl
    (by decide) rfl

theorem dictGet_dictSet_ne (d : List (String × PyVal)) (k key : String)
    (v : PyVal) (hne : key ≠ k) :
    dictGet (dictSet d k v) key = dictGet d key := by
  have hke : ¬k = key := fun h => hne h.symm
  induction d with
  | nil => simp [dictSet, dictGet, hke]
  | cons kv rest ih =>
      obtain ⟨k2, v2⟩ := kv
      by_cases h2 : k2 = k
      · subst h2
        simp [dictSet, dictGet, hke]
      · by_cases hkey : k2 = key
        · subst hkey
          simp [dictSet, dictGet, h2]
        · simp [dictSet, dictGet, h2, hkey, ih]

theorem gvod_default (mappings : List (String × Field))
    (inst : List (String × PyVal)) (key : String) (fld : Field) (d : PyVal)
    (hm : dictGetF mappings key = some fld)
    (hd : fld.default = .dval d ∨ fld.default = .dfun d)
    (hv : dictGet inst key = some .vnone ∨ dictGet inst key = none) :
    getValueOrDefault mappings inst key = .ok (d, dictSet inst key d) := by
  have hgv : getValue inst key = .vnone := by
    rcases hv with h | h <;> simp [getValue, h]
  simp only [getValueOrDefault, hgv, hm]
  rcases hd with h | h <;> rw [h]

theorem gvod_preserves (mappings : List (String × Field))
    (inst : List (String × PyVal)) (k : String) (v : PyVal)
    (inst1 : List (String × PyVal))
    (h : getValueOrDefault mappings inst k = .ok (v, inst1))
    (key : String) (hne : key ≠ k) :
    dictGet inst1 key = dictGet inst key := by
  simp only [getValueOrDefault] at h
  split at h
  · split at h
    · cases h
    · split at h
      · cases h; rfl
      · cases h; exact dictGet_dictSet_ne inst k key _ hne
      · cases h; exact dictGet_dictSet_ne inst k key _ hne
  · cases h; rfl

theorem gvodList_mem (mappings : List (String × Field)) (key : String)
    (fld : Field) (d : PyVal)
    (hm : dictGetF mappings key = some fld)
    (hd : fld.default = .dval d ∨ fld.default = .dfun d) :
    ∀ (ks : List String) (inst : List (String × PyVal)) (args : List PyVal)
      (inst2 : List (String × PyVal)),
      key ∈ ks →
      (dictGet inst key = some .vnone ∨ dictGet inst key = none) →
      gvodList mappings ks inst = .ok (args, inst2) →
      (key, d) ∈ ks.zip args := by
  intro ks
  induction ks with
  | nil => intro inst args inst2 hk; exact absurd hk (List.not_mem_nil key)
  | cons k rest ih =>
      intro inst args inst2 hk hv hrun
      simp only [gvodList] at hrun
      by_cases hkey : k = key
      · subst hkey
        split at hrun
        · rename_i e heq
          rw [gvod_default mappings inst k fld d hm hd hv] at heq
          cases heq
        · rename_i v1 inst1 heq
          rw [gvod_default mappings inst k fld d hm hd hv] at heq
          cases heq
          split at hrun
          · cases hrun
          · cases hrun
            exact List.mem_cons_self _ _
      · have hk' : key ∈ rest := by
          rcases List.mem_cons.mp hk with h | h
          · exact absurd h.symm hkey
          · exact h
        split at hrun
        · cases hrun
        · rename_i v inst1 heq
          split at hrun
          · cases hrun
          · rename_i vs instF heq2
            cases hrun
            have hv1 : dictGet inst1 key = some .vnone ∨
                dictGet inst1 key = none := by
              rw [gvod_preserves mappings inst k v inst1 heq key
                (fun h => hkey h.symm)]
              exact hv
            exact List.mem_cons_of_mem _ (ih inst1 vs _ hk' hv1 heq2)

/-- C8: for a non-key field whose declared default is not `None`, an
explicitly assigned `None` is replaced: `getValueOrDefault` substitutes
the field's default and caches it on the instance, and the INSERT
argument list assembled by `save` carries the default value at that
field's position, never the assigned `None`. -/
theorem c8_save_substitutes_default_for_none
    (mappings : List (String × Field)) (inst : List (String × PyVal))
    (key : String) (fld : Field) (d : PyVal) (fields : List String)
    (pk : String) (args : List PyVal) (inst2 : List (String × PyVal))
    (hm : dictGetF mappings key = some fld)
    (hd : fld.default = .dval d ∨ fld.default = .dfun d)
    (hv : dictGet inst key = some .vnone)
    (hf : key ∈ fields)
    (hsave : saveArgs mappings fields pk inst = .ok (args, inst2)) :
    getValueOrDefault mappings inst key = .ok (d, dictSet inst key d) ∧
    (key, d) ∈ (fields ++ [pk]).zip args := by
  refine ⟨gvod_default mappings inst key fld d hm hd (Or.inl hv), ?_⟩
  exact gvodList_mem mappings key fld d hm hd (fields ++ [pk]) inst args
    inst2 (List.mem_append_left _ hf) (Or.inl hv) hsave

/-- A non-key text field with default `"n/a"`. -/
def fldBio : Field :=
  { name := none, column_type := "text", primary_key := false,
    default := .dval (.vstr "n/a") }

/-- C8 witness: an instance that explicitly assigned `None` to `bio`
still INSERTs the default `"n/a"`, and the default is cached on the
instance. -/
theorem c8_save_substitutes_default_for_none_witness :
    getValueOrDefault [("bio", fldBio)] [("bio", .vnone), ("id", .vint 7)]
        "bio" =
      .ok (.vstr "n/a",
        dictSet [("bio", .vnone), ("id", .vint 7)] "bio" (.vstr "n/a")) ∧
    ("bio", PyVal.vstr "n/a") ∈
      (["bio"] ++ ["id"]).zip [PyVal.vstr "n/a", PyVal.vint 7] :=
  c8_save_substitutes_default_for_none [("bio", fldBio)]
    [("bio", .vnone), ("id", .vint 7)] "bio" fldBio (.vstr "n/a") ["bio"]
    "id" [.vstr "n/a", .vint 7]
    [("bio", .vstr "n/a"), ("id", .vint 7)] rfl (Or.inl rfl) rfl
    (by decide) rfl

/-- C9: for a model class whose non-key field declares a column name
different from its attribute name, the canned UPDATE's SET clause
addresses the declared column name (`mappings.get(f).name or f`) while
the canned SELECT and INSERT use the backtick-escaped attribute name —
so the three canned statements do not address the same column for that
field. -/
theorem c9_update_uses_declared_column_name (name : String)
    (tbl : Option String) (attrs : List (String × Attr)) (meta : ModelMeta)
    (i : Nat) (a c : String) (fld : Field)
    (hok : modelMetaNew name tbl attrs = .ok (some meta))
    (hi : meta.fields[i]? = some a)
    (hm : dictGetF meta.mappings a = some fld)
    (hc : fld.name = some c) (hc0 : c ≠ "") (hca : c ≠ a) :
    (meta.fields.map (updateSetItem meta.mappings))[i]? =
      some ("`" ++ c ++ "`=?") ∧
    (meta.fields.map escapeField)[i]? = some ("`" ++ a ++ "`") ∧
    "`" ++ c ++ "`=?" ≠ "`" ++ a ++ "`=?" ∧
    meta.updateSql = "update `" ++ meta.tableName ++ "` set " ++
      joinWith ", " (meta.fields.map (updateSetItem meta.mappings)) ++
      " where `" ++ meta.primaryKey ++ "`=?" ∧
    meta.selectSql = "select `" ++ meta.primaryKey ++ "`, " ++
      joinWith ", " (meta.fields.map escapeField) ++ " from `" ++
      meta.tableName ++ "`" ∧
    meta.insertSql = "insert into `" ++ meta.tableName ++ "` (" ++
      joinWith ", " (meta.fields.map escapeField) ++ ", `" ++
      meta.primaryKey ++ "`) values (" ++
      create_args_string (meta.fields.length + 1) ++ ")" := by
  have hdiff : "`" ++ c ++ "`=?" ≠ "`" ++ a ++ "`=?" := by
    intro heq
    apply hca
    have h1 : ("`" ++ c ++ "`=?").data = ("`" ++ a ++ "`=?").data :=
      congrArg String.data heq
    rw [String.data_append, String.data_append, String.data_append,
      String.data_append] at h1
    exact String.ext (List.append_cancel_left (List.append_cancel_right h1))
  by_cases hname : name = "Model"
  · simp only [modelMetaNew, if_pos hname] at hok
    cases hok
  · simp only [modelMetaNew, if_neg hname] at hok
    cases hscan : scanFields attrs [] [] none <;> rw [hscan] at hok
    · cases hok
    · rename_i r
      obtain ⟨m2, f2, pk⟩ := r
      cases hok
      simp only [buildMeta] at hi hm ⊢
      refine ⟨?_, ?_, hdiff, trivial, trivial, ?_⟩
      · rw [List.getElem?_map, hi]
        simp [updateSetItem, hm, hc, pyNameOr, hc0]
      · rw [List.getElem?_map, hi]
        simp [escapeField]
      · rw [List.length_map]

/-- The metadata computed for the `User` fixture: its `email` attribute
declares column name `user_email`. -/
def metaW : ModelMeta :=
  buildMeta "User" [("id", fldId), ("email", fldEmail)] ["email"] "id"

/-- C9 witness: the `User` fixture's canned UPDATE addresses
`user_email` while its SELECT and INSERT address `email`. -/
theorem c9_update_uses_declared_column_name_witness :
    (metaW.fields.map (updateSetItem metaW.mappings))[0]? =
      some ("`" ++ "user_email" ++ "`=?") ∧
    (metaW.fields.map escapeField)[0]? = some ("`" ++ "email" ++ "`") ∧
    "`" ++ "user_email" ++ "`=?" ≠ "`" ++ "email" ++ "`=?" ∧
    metaW.updateSql = "update `" ++ metaW.tableName ++ "` set " ++
      joinWith ", " (metaW.fields.map (updateSetItem metaW.mappings)) ++
      " where `" ++ metaW.primaryKey ++ "`=?" ∧
    metaW.selectSql = "select `" ++ metaW.primaryKey ++ "`, " ++
      joinWith ", " (metaW.fields.map escapeField) ++ " from `" ++
      metaW.tableName ++ "`" ∧
    metaW.insertSql = "insert into `" ++ metaW.tableName ++ "` (" ++
      joinWith ", " (metaW.fields.map escapeField) ++ ", `" ++
      metaW.primaryKey ++ "`) values (" ++
      create_args_string (metaW.fields.length + 1) ++ ")" :=
  c9_update_uses_declared_column_name "User" none attrsW metaW 0 "email"
    "user_email" fldEmail rfl rfl rfl rfl (by decide) (by decide)

end Spec2Proof
